import Mathlib

/-!
Verification development for the blockchain.info dashboard wrapper
(`BlockchainInfoAPI` in `main.py`).

The data-acquisition and caching layer is embedded shallowly:

* JSON payloads are the inductive `Json` (numbers as exact rationals —
  no property below performs float arithmetic, values only flow through);
* pandas `DataFrame`s are the structure `DataFrame` (column labels,
  index labels, row-major cells; a missing cell / `NaN` / `NaT` is `none`);
* Python dictionaries are insertion-ordered association lists, with
  `pySetItem` as `d[k] = v` (replace the first binding in place, else append)
  and `List.lookup` as `d[k]`;
* Python exceptions are `Except PyErr`; the catch-all `except` blocks of
  `obtener_grafico` / `obtener_pools` turn an error into the empty table;
* `time.time()` instants and the cache duration are rationals;
* the network is a `Net` oracle: what `requests.get` would answer at a
  given instant for a given endpoint and resolved query parameters.
  `Except.error` is a `RequestException` (non-2xx or transport failure).
-/

inductive Json where
  | num (q : ℚ)
  | str (s : String)
  | arr (xs : List Json)
  | obj (fields : List (String × Json))
deriving Repr

-- Structural equality on payloads, playing the role of Python `==`
-- on parsed JSON values (numbers, strings, lists, dicts).
mutual
def Json.beq : Json → Json → Bool
  | .num a, .num b => decide (a = b)
  | .str a, .str b => a == b
  | .arr xs, .arr ys => Json.beqList xs ys
  | .obj fs, .obj gs => Json.beqFields fs gs
  | _, _ => false
def Json.beqList : List Json → List Json → Bool
  | [], [] => true
  | x :: xs, y :: ys => Json.beq x y && Json.beqList xs ys
  | _, _ => false
def Json.beqFields : List (String × Json) → List (String × Json) → Bool
  | [], [] => true
  | (k, v) :: xs, (l, w) :: ys => k == l && Json.beq v w && Json.beqFields xs ys
  | _, _ => false
end

instance : BEq Json := ⟨Json.beq⟩

/-- Python exception kinds that the embedded code can raise. -/
inductive PyErr where
  | attributeError
  | typeError
  | keyError
  | valueError
  | requestException
deriving Repr, DecidableEq

/-- Python truthiness of a parsed JSON value (`bool(datos)`):
`0`, `""`, `[]` and the empty dict are falsy. -/
def pyTruthy : Json → Bool
  | .num q => decide (q ≠ 0)
  | .str s => s ≠ ""
  | .arr xs => !xs.isEmpty
  | .obj fs => !fs.isEmpty

/-- Substring containment over character lists (Python `needle in haystack`). -/
def contieneSub (needle : List Char) : List Char → Bool
  | [] => needle.isPrefixOf []
  | c :: rest => needle.isPrefixOf (c :: rest) || contieneSub needle rest

/-- `key in datos` for a parsed JSON value: dict → key membership,
list → element membership, string → substring test, number → `TypeError`. -/
def pyContains (key : String) : Json → Except PyErr Bool
  | .obj fs => .ok (List.lookup key fs).isSome
  | .arr xs => .ok (xs.contains (Json.str key))
  | .str s => .ok (contieneSub key.toList s.toList)
  | .num _ => .error .typeError

/-- `datos[key]` with a string key: dict lookup (`KeyError` when absent);
any other value raises `TypeError` (string/list indices are not strings). -/
def pyGetItem (d : Json) (key : String) : Except PyErr Json :=
  match d with
  | .obj fs =>
    match List.lookup key fs with
    | some v => .ok v
    | none => .error .keyError
  | _ => .error .typeError

/-- `datos.get(key, default)`: only dicts have `.get`
(anything else raises `AttributeError`). -/
def pyGet (d : Json) (key : String) (dflt : Json) : Except PyErr Json :=
  match d with
  | .obj fs => .ok ((List.lookup key fs).getD dflt)
  | _ => .error .attributeError

/-- Elementwise effectful map (the first error wins), used wherever pandas
converts a whole column/index at once. -/
def mapExcept {ε α β : Type} (f : α → Except ε β) : List α → Except ε (List β)
  | [] => .ok []
  | x :: xs =>
    match f x, mapExcept f xs with
    | .ok y, .ok ys => .ok (y :: ys)
    | .error e, _ => .error e
    | .ok _, .error e => .error e

/-- Elementwise partial map (`none` as soon as one element fails). -/
def mapOption {α β : Type} (f : α → Option β) : List α → Option (List β)
  | [] => some []
  | x :: xs =>
    match f x, mapOption f xs with
    | some y, some ys => some (y :: ys)
    | _, _ => none

/-- `len(datos)`: length of a list, string or dict; `TypeError` on a number. -/
def pyLen : Json → Except PyErr Nat
  | .arr xs => .ok xs.length
  | .str s => .ok s.length
  | .obj fs => .ok fs.length
  | .num _ => .error .typeError

/-- `d[k] = v` on an insertion-ordered dict: replace the first binding of `k`
in place, otherwise append the new binding at the end. -/
def pySetItem {α β : Type} [BEq α] : List (α × β) → α → β → List (α × β)
  | [], k, v => [(k, v)]
  | (a, b) :: t, k, v => if a == k then (k, v) :: t else (a, b) :: pySetItem t k v

/-- The quote character `'`, used by Python `repr` of strings. -/
def comillaSimple : String := String.mk [Char.ofNat 39]

/-- `str(params)` for a dict of strings, as Python prints it:
`\x7b'k1': 'v1', 'k2': 'v2'\x7d` in insertion order. -/
def pyDictStr (params : List (String × String)) : String :=
  let item : String × String → String := fun kv =>
    comillaSimple ++ kv.1 ++ comillaSimple ++ ": " ++ comillaSimple ++ kv.2 ++ comillaSimple
  "\x7b" ++ String.intercalate ", " (params.map item) ++ "\x7d"

/-- Column keys in order of first appearance across the rows
(how `pd.DataFrame(list_of_dicts)` orders its columns). -/
def clavesEnOrden (seen : List String) : List String → List String
  | [] => []
  | k :: ks =>
    if k ∈ seen then clavesEnOrden seen ks
    else k :: clavesEnOrden (k :: seen) ks

/-- Decimal-string parsing backing `float(s)` for plain
`[+-]?digits[.digits]` forms (the only coercion `pd.to_datetime(..., unit='s')`
applies to string entries; exponent/`inf`/`nan` spellings are not exercised
by any property below and parse as failures, i.e. raise). -/
def parseDecimal? (s : String) : Option ℚ :=
  let (sgn, cs) : ℚ × List Char :=
    match s.toList with
    | '-' :: r => (-1, r)
    | '+' :: r => (1, r)
    | cs => (1, cs)
  let digitos : List Char → Option ℕ := fun ds =>
    ds.foldl (fun acc c =>
      acc.bind fun n => if c.isDigit then some (10 * n + (c.toNat - 48)) else none)
      (some 0)
  match cs.splitOn '.' with
  | [ip] =>
    if ip.isEmpty then none
    else (digitos ip).map (fun n => sgn * (n : ℚ))
  | [ip, fp] =>
    if ip.isEmpty && fp.isEmpty then none
    else
      match digitos ip, digitos fp with
      | some n, some f => some (sgn * ((n : ℚ) + (f : ℚ) / (10 : ℚ) ^ fp.length))
      | _, _ => none
  | _ => none

/-!
## DataFrame model

`cols` are the column labels, `index` the row labels, `data` the cells in
row-major order (each inner list is aligned with `cols`). A `none` cell or
label is pandas `NaN`/`NaT`. `pd.Timestamp`s produced by
`pd.to_datetime(..., unit='s')` are represented by their epoch-second value,
an order-isomorphic encoding (the conversion is strictly increasing).
-/

structure DataFrame where
  cols : List String
  index : List (Option Json)
  data : List (List (Option Json))
deriving Repr

/-- `pd.DataFrame()`: no columns, no rows. -/
def DataFrame.vacio : DataFrame := ⟨[], [], []⟩

/-- `pd.DataFrame(columns=['relativeSize'])`: typed but empty. -/
def DataFrame.vacioPools : DataFrame := ⟨["relativeSize"], [], []⟩

/-- `pd.DataFrame(rows)` for a list of dict rows: columns in order of first
appearance, a default `RangeIndex`, and `NaN` for a key a row lacks. -/
def dfDeFilas (rows : List (List (String × Json))) : DataFrame :=
  let cols := clavesEnOrden [] (rows.flatMap (fun r => r.map Prod.fst))
  { cols := cols
    index := (List.range rows.length).map (fun i => some (Json.num i))
    data := rows.map (fun r => cols.map (fun c => List.lookup c r)) }

/-- `pd.DataFrame(values)` as invoked by `_procesar_datos_grafico`: the
payload field must be a JSON array of objects. A non-array raises
`ValueError`, as do mixed scalar/dict rows; rows of bare scalars (which
pandas would accept with integer column labels) are likewise out of the
modelled payload space and raise. -/
def construirDataFrame (values : Json) : Except PyErr DataFrame :=
  match values with
  | .arr rows =>
    match mapExcept (fun r =>
        match r with
        | Json.obj fs => Except.ok fs
        | _ => Except.error PyErr.valueError) rows with
    | .ok objs => .ok (dfDeFilas objs)
    | .error e => .error e
  | _ => .error .valueError

/-- `df.set_index('x')` (caller guarantees `'x' ∈ df.cols`): the `x` column
becomes the row labels and disappears from the columns. -/
def DataFrame.setIndexX (df : DataFrame) : DataFrame :=
  let i := df.cols.indexOf "x"
  { cols := df.cols.eraseIdx i
    index := df.data.map (fun r => (r.get? i).join)
    data := df.data.map (fun r => r.eraseIdx i) }

/-- `pd.to_datetime(labels, unit='s')`: a numeric label becomes the timestamp
at that many epoch seconds (kept as its rational value), `NaN` becomes `NaT`,
a numeric string is coerced through `float`, any other string raises
`ValueError`, and a list/dict label raises `TypeError`. -/
def toDatetimeS (labels : List (Option Json)) : Except PyErr (List (Option Json)) :=
  mapExcept (fun l =>
    match l with
    | none => .ok none
    | some (.num q) => .ok (some (.num q))
    | some (.str s) =>
      match parseDecimal? s with
      | some q => .ok (some (Json.num q))
      | none => .error .valueError
    | some _ => .error .typeError) labels

/-- Positions of the columns `df.select_dtypes(include=['number'])` keeps:
a column is numeric when every present cell is a number (missing cells are
`NaN`, which pandas stores in a float column); any string/list/dict cell
makes the column `object` dtype. -/
def DataFrame.columnasNumericas (df : DataFrame) : List ℕ :=
  (List.range df.cols.length).filter (fun j =>
    df.data.all (fun r =>
      match (r.get? j).join with
      | none => true
      | some (.num _) => true
      | some _ => false))

/-- The `# Asegurar que siempre hay una columna 'y'` block of
`_procesar_datos_grafico`: when no `'y'` column exists and the table has
columns, the first numeric column (if any) is renamed to `'y'`. -/
def DataFrame.asegurarColumnaY (df : DataFrame) : DataFrame :=
  if "y" ∈ df.cols then df
  else if df.cols.isEmpty then df
  else
    match df.columnasNumericas with
    | [] => df
    | i :: _ => { df with cols := df.cols.set i "y" }

/-- The table-building part of `_procesar_datos_grafico` before the `'y'`
normalization: build the frame from the values rows, and when an `'x'`
column is present make it the time index via `pd.to_datetime(..., unit='s')`. -/
def construirDfTiempo (values : Json) : Except PyErr DataFrame :=
  match construirDataFrame values with
  | .error e => .error e
  | .ok df =>
    if "x" ∈ df.cols then
      match toDatetimeS df.setIndexX.index with
      | .error e => .error e
      | .ok idx => .ok { df.setIndexX with index := idx }
    else .ok df

/-!
## `BlockchainInfoAPI` state and catalog
-/

/-- `self.parametros_predeterminados` as set by `__init__`. -/
def parametros_predeterminados : List (String × String) :=
  [("timespan", "1year"),
   ("sampled", "true"),
   ("metadata", "false"),
   ("daysAverageString", "1d"),
   ("cors", "true"),
   ("format", "json")]

/-- `self.metricas_con_endpoint_especial` as set by `__init__`. -/
def metricas_con_endpoint_especial : List (String × String) :=
  [("mempool-state-by-fee-level", "charts/mempool-state-by-fee-level/interval")]

/-- `self.nombres_descriptivos` as set by `__init__`. -/
def nombres_descriptivos : List (String × String) :=
  [("market-price", "Precio de Mercado (USD)"),
   ("market-cap", "Capitalización de Mercado"),
   ("trade-volume", "Volumen de Comercio USD"),
   ("blocks-size", "Tamaño de Blockchain (MB)"),
   ("avg-block-size", "Tamaño Promedio de Bloque (MB)"),
   ("n-transactions-per-block", "Transacciones por Bloque"),
   ("n-payments-per-block", "Pagos por Bloque"),
   ("n-transactions-total", "Número Total de Transacciones"),
   ("median-confirmation-time", "Tiempo Mediano de Confirmación"),
   ("avg-confirmation-time", "Tiempo Promedio de Confirmación"),
   ("hash-rate", "Tasa de Hash (TH/s)"),
   ("difficulty", "Dificultad de Minería"),
   ("miners-revenue", "Ingresos de Mineros (USD)"),
   ("transaction-fees", "Comisiones Totales (BTC)"),
   ("transaction-fees-usd", "Comisiones Totales (USD)"),
   ("fees-usd-per-transaction", "Comisiones Promedio por TX (USD)"),
   ("cost-per-transaction", "Costo por Transacción"),
   ("cost-per-transaction-percent", "Costo por Transacción (%)"),
   ("n-unique-addresses", "Direcciones Únicas Usadas"),
   ("n-transactions", "Transacciones Confirmadas por Día"),
   ("n-payments", "Pagos Confirmados por Día"),
   ("transactions-per-second", "Transacciones por Segundo"),
   ("output-volume", "Valor de Salida por Día"),
   ("mempool-count", "Conteo de Transacciones Mempool"),
   ("mempool-growth", "Crecimiento del Mempool"),
   ("mempool-size", "Tamaño del Mempool (Bytes)"),
   ("mempool-state-by-fee-level", "Estado del Mempool por Nivel de Comisión"),
   ("utxo-count", "Salidas de Transacciones No Gastadas (UTXO)"),
   ("n-transactions-excluding-popular", "Transacciones (Excluyendo Direcciones Populares)"),
   ("estimated-transaction-volume", "Valor de Transacción Estimado (BTC)"),
   ("estimated-transaction-volume-usd", "Valor de Transacción Estimado (USD)"),
   ("mvrv", "Ratio Valor de Mercado a Valor Realizado (MVRV)"),
   ("nvt", "Ratio Valor de Red a Transacciones (NVT)"),
   ("nvts", "Señal NVT"),
   ("total-bitcoins", "Bitcoins en Circulación")]

/-- `obtener_categorias_graficos`: the static category → metric-id mapping. -/
def obtener_categorias_graficos : List (String × List String) :=
  [("Mercado",
    ["market-price", "market-cap", "trade-volume"]),
   ("Detalles de Bloques",
    ["blocks-size", "avg-block-size", "n-transactions-per-block",
     "n-payments-per-block", "n-transactions-total",
     "median-confirmation-time", "avg-confirmation-time"]),
   ("Información de Minería",
    ["hash-rate", "difficulty", "miners-revenue", "transaction-fees",
     "transaction-fees-usd", "fees-usd-per-transaction",
     "cost-per-transaction", "cost-per-transaction-percent"]),
   ("Actividad de Red",
    ["n-unique-addresses", "n-transactions", "n-payments",
     "transactions-per-second", "output-volume", "mempool-count",
     "mempool-growth", "mempool-size", "mempool-state-by-fee-level",
     "utxo-count", "n-transactions-excluding-popular",
     "estimated-transaction-volume", "estimated-transaction-volume-usd"]),
   ("Señales de Mercado",
    ["mvrv", "nvt", "nvts"]),
   ("Suministro",
    ["total-bitcoins"])]

/-- The mutable instance state of a `BlockchainInfoAPI` object.

`metricas_con_ajuste_promedio` is an `Option`: `__init__` never assigns this
attribute, so on the constructed object the field is `none` and reading it
raises `AttributeError`; `some` models an object on which the attribute
would exist. -/
structure APIState where
  parametros_predeterminados : List (String × String)
  cache : List (String × (Json × ℚ))
  duracion_cache : ℚ
  metadatos_graficos : List (Json × (Json × Json × Json))
  graficos_disponibles : List Json
  metricas_con_endpoint_especial : List (String × String)
  metricas_con_ajuste_promedio : Option (List String)
  nombres_descriptivos : List (String × String)
deriving Repr

/-- `BlockchainInfoAPI(duracion_cache)`: the state `__init__` builds. -/
def estadoInicial (duracion_cache : ℚ := 3600) : APIState :=
  { parametros_predeterminados := parametros_predeterminados
    cache := []
    duracion_cache := duracion_cache
    metadatos_graficos := []
    graficos_disponibles := []
    metricas_con_endpoint_especial := metricas_con_endpoint_especial
    metricas_con_ajuste_promedio := none
    nombres_descriptivos := nombres_descriptivos }

/-!
## `_hacer_solicitud`: parameter resolution, cache key, cache, network
-/

/-- The network oracle: what `requests.get(BASE_URL/endpoint, params)` would
yield at a given instant — a parsed JSON body on a 2xx response, or
`Except.error ()` for a transport failure / non-2xx status
(`requests.exceptions.RequestException`). -/
def Net : Type := ℚ → String → List (String × String) → Except Unit Json

/-- `not params.get('timespan')`: true when the key is absent (`None`) or
bound to a falsy (empty) string. -/
def timespanFalsy (params : List (String × String)) : Bool :=
  match List.lookup "timespan" params with
  | none => true
  | some v => v = ""

/-- The default-merging step of `_hacer_solicitud`: when the endpoint
mentions `charts` and no truthy `timespan` was supplied, each default key
not already present is appended (in default-dict order); otherwise the
parameters pass through unchanged. -/
def resolverParametros (defaults : List (String × String)) (endpoint : String)
    (params : List (String × String)) : List (String × String) :=
  if contieneSub "charts".toList endpoint.toList && timespanFalsy params then
    params ++ defaults.filter (fun kv => (List.lookup kv.1 params).isNone)
  else
    params

/-- `clave_cache = f"{endpoint}_{str(params)}"`. -/
def clave_cache (endpoint : String) (params : List (String × String)) : String :=
  endpoint ++ "_" ++ pyDictStr params

/-- `_hacer_solicitud`, returning the raised-or-returned payload, the updated
instance state, and the number of network requests performed (0 or 1). -/
def hacer_solicitud (s : APIState) (net : Net) (ahora : ℚ) (endpoint : String)
    (params : List (String × String)) (usar_cache : Bool := true) :
    Except PyErr Json × APIState × ℕ :=
  let params := resolverParametros s.parametros_predeterminados endpoint params
  let clave := clave_cache endpoint params
  let fetch : Except PyErr Json × APIState × ℕ :=
    match net ahora endpoint params with
    | .error _ => (.error .requestException, s, 1)
    | .ok datos =>
      (.ok datos,
       if usar_cache then { s with cache := pySetItem s.cache clave (datos, ahora) } else s,
       1)
  match (if usar_cache then List.lookup clave s.cache else none) with
  | some (datos_cache, timestamp) =>
    if ahora - timestamp < s.duracion_cache then (.ok datos_cache, s, 0)
    else fetch
  | none => fetch

/-!
## `_procesar_datos_grafico` and `obtener_grafico`
-/

/-- The metadata-registration prologue of `_procesar_datos_grafico`:
when the payload carries both `name` and `description`, record the chart
metadata and remember the chart as available. Errors raised during the
checks leave the state untouched (all mutation is in the success leaf,
as in the source). -/
def registrarMetadatos (s : APIState) (datos : Json) : Except PyErr APIState :=
  match pyContains "name" datos with
  | .error e => .error e
  | .ok false => .ok s
  | .ok true =>
    match pyContains "description" datos with
    | .error e => .error e
    | .ok false => .ok s
    | .ok true =>
      match pyGetItem datos "name", pyGetItem datos "description",
            pyGet datos "unit" (Json.str ""), pyGet datos "period" (Json.str "") with
      | .ok nombre_grafico, .ok descripcion, .ok unidad, .ok periodo =>
        .ok { s with
          metadatos_graficos :=
            (pySetItem s.metadatos_graficos nombre_grafico (descripcion, unidad, periodo))
          graficos_disponibles :=
            (if s.graficos_disponibles.contains nombre_grafico then s.graficos_disponibles
             else s.graficos_disponibles ++ [nombre_grafico]) }
      | .error e, _, _, _ => .error e
      | _, .error e, _, _ => .error e
      | _, _, .error e, _ => .error e
      | _, _, _, .error e => .error e

/-- `_procesar_datos_grafico(datos)`: register metadata, build the frame from
`datos['values']`, promote an `'x'` column to a time index, and ensure a
canonical `'y'` column. Returns the raised-or-returned frame together with
the (possibly mutated) instance state. -/
def procesar_datos_grafico (s : APIState) (datos : Json) :
    Except PyErr DataFrame × APIState :=
  match registrarMetadatos s datos with
  | .error e => (.error e, s)
  | .ok s' =>
    match pyGetItem datos "values" with
    | .error e => (.error e, s')
    | .ok values =>
      match construirDfTiempo values with
      | .error e => (.error e, s')
      | .ok df => (.ok df.asegurarColumnaY, s')

/-- The data-validation block of `obtener_grafico`:
`.ok false` means "log a warning and return an empty frame"
(`not datos`, missing `values`, falsy or zero-length `values`);
`.ok true` means the payload proceeds to `_procesar_datos_grafico`. -/
def validarDatos (datos : Json) : Except PyErr Bool :=
  if !pyTruthy datos then .ok false
  else
    match pyContains "values" datos with
    | .error e => .error e
    | .ok false => .ok false
    | .ok true =>
      match pyGetItem datos "values" with
      | .error e => .error e
      | .ok values =>
        if !pyTruthy values then .ok false
        else
          match pyLen values with
          | .error e => .error e
          | .ok n => if n = 0 then .ok false else .ok true

/-- The `try:` body of `obtener_grafico`, before the catch-all `except`.
Its very first step reads `self.metricas_con_ajuste_promedio`, which
raises `AttributeError` whenever that attribute does not exist (the
constructed object: `__init__` never assigns it). -/
def obtener_grafico_run (s : APIState) (net : Net) (ahora : ℚ)
    (nombre_grafico : String) (params : List (String × String)) :
    Except PyErr DataFrame × APIState × ℕ :=
  match s.metricas_con_ajuste_promedio with
  | none => (.error .attributeError, s, 0)
  | some metricas_ajuste =>
    let params :=
      if metricas_ajuste.contains nombre_grafico then
        let timespan_solicitado : Option String :=
          (List.lookup "timespan" params).orElse
            (fun _ => List.lookup "timespan" s.parametros_predeterminados)
        let esLargo :=
          match timespan_solicitado with
          | some v => ["2years", "3years", "5years", "all"].contains v
          | none => false
        if esLargo then pySetItem params "daysAverageString" "30d"
        else pySetItem params "daysAverageString" "1d"
      else params
    let (endpoint, params) :=
      match List.lookup nombre_grafico s.metricas_con_endpoint_especial with
      | some ep =>
        (ep, if nombre_grafico = "mempool-state-by-fee-level" then [("cors", "true")]
             else params)
      | none => ("charts/" ++ nombre_grafico, params)
    match hacer_solicitud s net ahora endpoint params true with
    | (.error e, s', n) => (.error e, s', n)
    | (.ok datos, s', n) =>
      match validarDatos datos with
      | .error e => (.error e, s', n)
      | .ok false => (.ok DataFrame.vacio, s', n)
      | .ok true =>
        match procesar_datos_grafico s' datos with
        | (.ok df, s'') => (.ok df, s'', n)
        | (.error e, s'') => (.error e, s'', n)

/-- `obtener_grafico(nombre_grafico, **params)`: the public operation —
any exception from the body is absorbed into an empty `DataFrame`. -/
def obtener_grafico (s : APIState) (net : Net) (ahora : ℚ)
    (nombre_grafico : String) (params : List (String × String)) :
    DataFrame × APIState × ℕ :=
  match obtener_grafico_run s net ahora nombre_grafico params with
  | (.ok df, s', n) => (df, s', n)
  | (.error _, s', n) => (DataFrame.vacio, s', n)

/-!
## `obtener_pools`
-/

/-- The parameter fix-up at the top of `obtener_pools`: default `timespan`
to `'4days'` when the key is absent, then force `cors = 'true'`. -/
def parametrosPools (params : List (String × String)) : List (String × String) :=
  let params :=
    if (List.lookup "timespan" params).isNone then pySetItem params "timespan" "4days"
    else params
  pySetItem params "cors" "true"

/-- The `df.at[pool, 'relativeSize'] = …` loop over `datos.items()`:
a dict entry carrying `relativeSize` contributes that value, a bare number
contributes itself, anything else is skipped. `df.at` replaces the row of
an existing label and appends a new row otherwise. -/
def construirFilasPools (acc : List (String × Json)) :
    List (String × Json) → List (String × Json)
  | [] => acc
  | (pool, info) :: rest =>
    match info with
    | .obj o =>
      match List.lookup "relativeSize" o with
      | some v => construirFilasPools (pySetItem acc pool v) rest
      | none => construirFilasPools acc rest
    | .num q => construirFilasPools (pySetItem acc pool (Json.num q)) rest
    | _ => construirFilasPools acc rest

/-- Stable descending insertion into a descending-sorted list. -/
def insertarDesc {κ : Type} (le : κ → κ → Bool) (x : String × κ) :
    List (String × κ) → List (String × κ)
  | [] => [x]
  | y :: ys => if le y.2 x.2 then x :: y :: ys else y :: insertarDesc le x ys

/-- Descending insertion sort by the second component. -/
def ordenDesc {κ : Type} (le : κ → κ → Bool) : List (String × κ) → List (String × κ)
  | [] => []
  | x :: xs => insertarDesc le x (ordenDesc le xs)

/-- `df.sort_values('relativeSize', ascending=False)`: an all-numeric (or
all-string) column sorts descending; comparing mixed types raises
`TypeError` (a single row never compares). Tie order is not relied on by
any property below. -/
def ordenarPoolsDesc (rows : List (String × Json)) :
    Except PyErr (List (String × Json)) :=
  if rows.length ≤ 1 then .ok rows
  else
    match mapOption (fun r => match r.2 with | Json.num q => some (r.1, q) | _ => none) rows with
    | some nums =>
      .ok ((ordenDesc (fun a b => decide (a ≤ b)) nums).map (fun r => (r.1, Json.num r.2)))
    | none =>
      match mapOption (fun r => match r.2 with | Json.str v => some (r.1, v) | _ => none) rows with
      | some strs =>
        .ok ((ordenDesc (fun a b => decide (a ≤ b)) strs).map (fun r => (r.1, Json.str r.2)))
      | none => .error .typeError

/-- The pools frame: the pool names are the index, `relativeSize` the one
column. -/
def dfPools (rows : List (String × Json)) : DataFrame :=
  { cols := ["relativeSize"]
    index := rows.map (fun r => some (Json.str r.1))
    data := rows.map (fun r => [some r.2]) }

/-- The `try:` body of `obtener_pools`. -/
def obtener_pools_run (s : APIState) (net : Net) (ahora : ℚ)
    (params : List (String × String)) : Except PyErr DataFrame × APIState × ℕ :=
  let params := parametrosPools params
  match hacer_solicitud s net ahora "pools" params true with
  | (.error e, s', n) => (.error e, s', n)
  | (.ok datos, s', n) =>
    let filas :=
      match datos with
      | .obj fields => construirFilasPools [] fields
      | _ => []
    if filas.isEmpty then (.ok DataFrame.vacioPools, s', n)
    else
      match ordenarPoolsDesc filas with
      | .ok ordenadas => (.ok (dfPools ordenadas), s', n)
      | .error e => (.error e, s', n)

/-- `obtener_pools(**params)`: any exception is absorbed into
`pd.DataFrame(columns=['relativeSize'])`. -/
def obtener_pools (s : APIState) (net : Net) (ahora : ℚ)
    (params : List (String × String)) : DataFrame × APIState × ℕ :=
  match obtener_pools_run s net ahora params with
  | (.ok df, s', n) => (df, s', n)
  | (.error _, s', n) => (DataFrame.vacioPools, s', n)

/-!
## Property vocabulary and concrete worlds used by the theorems
-/

/-- A monotonically non-decreasing time index: every adjacent pair of
numeric timestamp labels is ordered. -/
def IndiceMonotono (idx : List (Option Json)) : Prop :=
  List.Chain' (fun a b => ∀ qa qb,
    a = some (Json.num qa) → b = some (Json.num qb) → qa ≤ qb) idx

/-- The pools table is descending in its (numeric) `relativeSize` cells. -/
def PoolsDescendente (df : DataFrame) : Prop :=
  List.Chain' (fun ra rb => ∀ qa qb,
    ra = [some (Json.num qa)] → rb = [some (Json.num qb)] → qb ≤ qa) df.data

/-- The per-entry extraction the `obtener_pools` loop performs: a dict entry
carrying `relativeSize` contributes that value, a bare number contributes
itself, anything else is skipped. -/
def extraerPool : String × Json → Option (String × Json)
  | (pool, Json.obj o) => (List.lookup "relativeSize" o).map (fun v => (pool, v))
  | (pool, Json.num q) => some (pool, Json.num q)
  | _ => none

/-- All metric ids of the display-name catalog. -/
def idsCatalogo : List String := nombres_descriptivos.map Prod.fst

/-- All metric ids across all category lists, in order. -/
def idsCategorias : List String := obtener_categorias_graficos.flatMap Prod.snd

/-- Thirty `(x, y)` points, one day apart — the mocked upstream body of the
end-to-end scenario. -/
def puntos30 : List Json :=
  (List.range 30).map (fun i =>
    Json.obj [("x", Json.num (1700000000 + 86400 * (i : ℚ))), ("y", Json.num (i : ℚ))])

/-- The mocked `hash-rate` payload with 30 values. -/
def carga30 : Json := Json.obj [("values", Json.arr puntos30)]

/-- A network that always answers the 30-point payload. -/
def net30 : Net := fun _ _ _ => .ok carga30

/-- A network whose payload records the instant it was asked at. -/
def netReloj : Net := fun t _ _ => .ok (Json.num t)

/-- A network that is always down. -/
def netCaido : Net := fun _ _ _ => .error ()

/-- `12.5`, written as a reduced fraction so that kernel evaluation works
(the `OfScientific` literal does not reduce); see
`doceComaCinco_eq` for the equivalence. -/
def doceComaCinco : ℚ := ⟨25, 2, by decide, by decide⟩

/-- `7.5` as a reduced fraction; see `sieteComaCinco_eq`. -/
def sieteComaCinco : ℚ := ⟨15, 2, by decide, by decide⟩

/-- The pool-distribution example payload from the specification:
one nested-object entry and one bare-number entry. -/
def cargaPoolsEjemplo : Json :=
  Json.obj [("PoolA", Json.obj [("relativeSize", Json.num doceComaCinco)]),
            ("PoolB", Json.num sieteComaCinco)]

/-- A network that always answers the example pools payload. -/
def netPoolsEjemplo : Net := fun _ _ _ => .ok cargaPoolsEjemplo

/-- A fresh instance whose cache holds exactly one entry — the state after
one successful cached fetch. -/
def estadoConEntrada (dur : ℚ) (k : String) (d : Json) (ts : ℚ) : APIState :=
  { estadoInicial dur with cache := [(k, (d, ts))] }

/-!
## Association-list helper lemmas
-/

theorem doceComaCinco_eq : doceComaCinco = (12.5 : ℚ) := by
  unfold doceComaCinco
  rw [Rat.mk'_eq_divInt, Rat.divInt_eq_div]
  norm_num

theorem sieteComaCinco_eq : sieteComaCinco = (7.5 : ℚ) := by
  unfold sieteComaCinco
  rw [Rat.mk'_eq_divInt, Rat.divInt_eq_div]
  norm_num

theorem lookup_append_some {β : Type} (k : String) (l1 l2 : List (String × β)) (v : β)
    (h : List.lookup k l1 = some v) : List.lookup k (l1 ++ l2) = some v := by
  induction l1 with
  | nil => simp [List.lookup] at h
  | cons a t ih =>
    obtain ⟨a1, a2⟩ := a
    simp only [List.cons_append, List.lookup] at h ⊢
    cases hk : (k == a1) with
    | true => rw [hk] at h; exact h
    | false => rw [hk] at h; exact ih h

theorem lookup_append_none {β : Type} (k : String) (l1 l2 : List (String × β))
    (h : List.lookup k l1 = none) : List.lookup k (l1 ++ l2) = List.lookup k l2 := by
  induction l1 with
  | nil => simp
  | cons a t ih =>
    obtain ⟨a1, a2⟩ := a
    simp only [List.cons_append, List.lookup] at h ⊢
    cases hk : (k == a1) with
    | true => rw [hk] at h; exact absurd h (by simp)
    | false => rw [hk] at h; exact ih h

theorem lookup_filter_clave {β : Type} (k : String) (l : List (String × β))
    (q : String → Bool) (hq : q k = true) :
    List.lookup k (l.filter (fun kv => q kv.1)) = List.lookup k l := by
  induction l with
  | nil => simp
  | cons a t ih =>
    obtain ⟨a1, a2⟩ := a
    by_cases hk : k = a1
    · subst hk
      simp only [List.filter_cons, hq, if_true, List.lookup, beq_self_eq_true]
    · have hbeq : (k == a1) = false := beq_eq_false_iff_ne.mpr hk
      cases hqa : q a1 with
      | true => simp only [List.filter_cons, hqa, if_true, List.lookup, hbeq]; exact ih
      | false => simp only [List.filter_cons, hqa, Bool.false_eq_true, if_false, List.lookup, hbeq]; exact ih

/-!
## Claims
-/

/-- C2: for every metric id and every parameter mapping, `obtener_grafico`
on the constructed object returns an empty table, leaves the state
untouched and performs no network request: its first step reads
`self.metricas_con_ajuste_promedio`, an attribute `__init__` never defines,
and the resulting `AttributeError` is absorbed by the catch-all branch
into the empty-result contract. -/
theorem C2_grafico_siempre_vacio_sin_red (dur : ℚ) (net : Net) (ahora : ℚ)
    (nombre : String) (params : List (String × String)) :
    obtener_grafico (estadoInicial dur) net ahora nombre params
      = (DataFrame.vacio, estadoInicial dur, 0) := rfl

/-- C1 (code bug): in the end-to-end scenario — metric `hash-rate`,
timespan `30days`, a mocked upstream answering 30 `(x, y)` points — the
code does not produce the specified 30-row table: the undefined
`metricas_con_ajuste_promedio` attribute aborts `obtener_grafico` before
any request is made, and the caller receives the empty frame with zero
network calls. -/
theorem C1_escenario_30dias_devuelve_vacio :
    pyLen (Json.arr puntos30) = .ok 30 ∧
    pyGetItem carga30 "values" = .ok (Json.arr puntos30) ∧
    obtener_grafico (estadoInicial 3600) net30 0 "hash-rate" [("timespan", "30days")]
      = (DataFrame.vacio, estadoInicial 3600, 0) := by
  refine ⟨rfl, rfl, rfl⟩

/-- C10: the category mapping of `obtener_categorias_graficos` is a
partition of the metric catalog: no id appears twice across category lists,
every id of the display-name catalog `nombres_descriptivos` appears in
exactly one category list, and every categorized id is in the catalog. -/
theorem C10_particion_de_categorias :
    idsCategorias.Nodup ∧
    (∀ m ∈ idsCatalogo, idsCategorias.count m = 1) ∧
    (∀ m ∈ idsCategorias, m ∈ idsCatalogo) := by decide

/-- C4 (counterexample): two parameter mappings that are equal as sets of
key-value pairs but inserted in different orders produce different cache
keys, because `clave_cache` serializes the dict in insertion order. -/
theorem C4_contraejemplo_orden_insercion :
    ([("sampled", "true"), ("timespan", "7days")] : List (String × String)).Perm
      [("timespan", "7days"), ("sampled", "true")] ∧
    clave_cache "charts/market-price"
        (resolverParametros parametros_predeterminados "charts/market-price"
          [("sampled", "true"), ("timespan", "7days")])
      ≠ clave_cache "charts/market-price"
        (resolverParametros parametros_predeterminados "charts/market-price"
          [("timespan", "7days"), ("sampled", "true")]) := by
  constructor
  · decide
  · decide

/-- C4 (amended): the cache key is deterministic in the endpoint and the
insertion-ordered serialization of the resolved parameters — two requests
collide exactly when their resolved parameter dicts print identically
(in particular, identical insertion-ordered mappings always collide);
set-equal mappings in different orders may differ (see the counterexample). -/
theorem C4_clave_determinista_por_serializacion (e : String)
    (p1 p2 : List (String × String)) :
    clave_cache e (resolverParametros parametros_predeterminados e p1)
        = clave_cache e (resolverParametros parametros_predeterminados e p2)
      ↔ pyDictStr (resolverParametros parametros_predeterminados e p1)
        = pyDictStr (resolverParametros parametros_predeterminados e p2) := by
  unfold clave_cache
  constructor
  · intro h
    have h2 := congrArg String.data h
    simp only [String.data_append, List.append_assoc] at h2
    exact String.ext (List.append_cancel_left (List.append_cancel_left h2))
  · intro h
    rw [h]

/-- C3 (counterexample): for the chart request `market-price` with caller
parameters `timespan='7days'`, the default `sampled='true'` is **not**
filled in — `_hacer_solicitud` merges defaults only when no truthy
`timespan` is supplied, so the claim "every missing default key is filled
in" fails on the code. -/
theorem C3_contraejemplo_sampled_no_rellenado :
    contieneSub "charts".toList "charts/market-price".toList = true ∧
    List.lookup "timespan"
        (resolverParametros parametros_predeterminados "charts/market-price"
          [("timespan", "7days")]) = some "7days" ∧
    List.lookup "sampled" parametros_predeterminados = some "true" ∧
    List.lookup "sampled"
        (resolverParametros parametros_predeterminados "charts/market-price"
          [("timespan", "7days")]) = none := by
  refine ⟨by decide, by decide, by decide, by decide⟩

/-- C3 (amended): for a chart-namespace request, defaults are merged only
when the caller supplies no truthy `timespan`; in that case every
caller-supplied value is kept and every missing default key is filled in,
and defaults never overwrite caller-supplied values. When a truthy
`timespan` is supplied the parameters pass through unchanged (so missing
defaults stay absent, as the counterexample shows). -/
theorem C3_precedencia_parametros (endpoint : String) (params : List (String × String))
    (hch : contieneSub "charts".toList endpoint.toList = true) :
    (timespanFalsy params = true →
      (∀ k v, List.lookup k params = some v →
        List.lookup k (resolverParametros parametros_predeterminados endpoint params)
          = some v) ∧
      (∀ k v, List.lookup k params = none →
        List.lookup k parametros_predeterminados = some v →
        List.lookup k (resolverParametros parametros_predeterminados endpoint params)
          = some v)) ∧
    (timespanFalsy params = false →
      resolverParametros parametros_predeterminados endpoint params = params) := by
  constructor
  · intro hts
    unfold resolverParametros
    rw [hch, hts]
    simp only [Bool.and_self, if_true]
    constructor
    · intro k v hkv
      exact lookup_append_some k _ _ v hkv
    · intro k v hkv hdef
      rw [lookup_append_none k _ _ hkv]
      rw [lookup_filter_clave k parametros_predeterminados
            (fun a => (List.lookup a params).isNone)
            (by show (List.lookup k params).isNone = true; rw [hkv]; rfl)]
      exact hdef
  · intro hts
    unfold resolverParametros
    rw [hch, hts]
    simp

/-- C3 witness: a concrete chart request without `timespan` keeps the
caller's `foo=bar` and fills `sampled=true` from the defaults. -/
theorem C3_testigo :
    List.lookup "foo"
        (resolverParametros parametros_predeterminados "charts/market-price"
          [("foo", "bar")]) = some "bar" ∧
    List.lookup "sampled"
        (resolverParametros parametros_predeterminados "charts/market-price"
          [("foo", "bar")]) = some "true" := by
  have h := C3_precedencia_parametros "charts/market-price" [("foo", "bar")] (by decide)
  exact ⟨(h.1 (by decide)).1 "foo" "bar" (by decide),
         (h.1 (by decide)).2 "sampled" "true" (by decide) (by decide)⟩


/-!
## `_hacer_solicitud` helper lemmas
-/

theorem params_estadoInicial (dur : ℚ) :
    (estadoInicial dur).parametros_predeterminados = parametros_predeterminados := rfl

theorem cache_estadoInicial (dur : ℚ) : (estadoInicial dur).cache = [] := rfl

theorem params_estadoConEntrada (dur : ℚ) (k : String) (d : Json) (ts : ℚ) :
    (estadoConEntrada dur k d ts).parametros_predeterminados
      = parametros_predeterminados := rfl

theorem cache_estadoConEntrada (dur : ℚ) (k : String) (d : Json) (ts : ℚ) :
    (estadoConEntrada dur k d ts).cache = [(k, (d, ts))] := rfl

theorem duracion_estadoConEntrada (dur : ℚ) (k : String) (d : Json) (ts : ℚ) :
    (estadoConEntrada dur k d ts).duracion_cache = dur := rfl

theorem hacer_solicitud_fallo_cache (s : APIState) (net : Net) (t : ℚ)
    (ep : String) (ps : List (String × String))
    (h : List.lookup
      (clave_cache ep (resolverParametros s.parametros_predeterminados ep ps))
      s.cache = none) :
    hacer_solicitud s net t ep ps true =
      match net t ep (resolverParametros s.parametros_predeterminados ep ps) with
      | .error _ => (.error .requestException, s, 1)
      | .ok datos =>
        (.ok datos,
         { s with cache := (pySetItem s.cache
             (clave_cache ep (resolverParametros s.parametros_predeterminados ep ps))
             (datos, t)) },
         1) := by
  simp only [hacer_solicitud, if_true]
  rw [h]

theorem hacer_solicitud_acierto_cache (s : APIState) (net : Net) (t : ℚ)
    (ep : String) (ps : List (String × String)) (d : Json) (ts : ℚ)
    (h : List.lookup
      (clave_cache ep (resolverParametros s.parametros_predeterminados ep ps))
      s.cache = some (d, ts))
    (hv : t - ts < s.duracion_cache) :
    hacer_solicitud s net t ep ps true = (.ok d, s, 0) := by
  simp only [hacer_solicitud, if_true]
  rw [h]
  simp only [hv, if_true]

theorem hacer_solicitud_expirado (s : APIState) (net : Net) (t : ℚ)
    (ep : String) (ps : List (String × String)) (d : Json) (ts : ℚ)
    (h : List.lookup
      (clave_cache ep (resolverParametros s.parametros_predeterminados ep ps))
      s.cache = some (d, ts))
    (hv : ¬ (t - ts < s.duracion_cache)) :
    hacer_solicitud s net t ep ps true =
      match net t ep (resolverParametros s.parametros_predeterminados ep ps) with
      | .error _ => (.error .requestException, s, 1)
      | .ok datos =>
        (.ok datos,
         { s with cache := (pySetItem s.cache
             (clave_cache ep (resolverParametros s.parametros_predeterminados ep ps))
             (datos, t)) },
         1) := by
  simp only [hacer_solicitud, if_true]
  rw [h]
  simp only [hv, if_false]

/-- C5: cache validity window. Starting from a fresh instance, a successful
fetch at `t0` stores `(payload, t0)` under the computed key; a second call
with the same endpoint and parameters performs zero network calls and
returns the identical stored payload exactly when `t1 - t0 < dur`
(the entry is usable iff `now - fetchTimestamp < duracion_cache`); and a
call at `t0 + dur + eps` with `eps > 0` performs exactly one additional
network call and overwrites the entry with the fresh payload and timestamp. -/
theorem C5_ventana_de_cache (dur t0 t1 eps : ℚ) (ep : String)
    (ps : List (String × String)) (net : Net) (d1 d2 : Json)
    (h1 : net t0 ep (resolverParametros parametros_predeterminados ep ps) = .ok d1)
    (h2 : net (t0 + dur + eps) ep
      (resolverParametros parametros_predeterminados ep ps) = .ok d2) :
    hacer_solicitud (estadoInicial dur) net t0 ep ps true
      = (.ok d1,
         estadoConEntrada dur
           (clave_cache ep (resolverParametros parametros_predeterminados ep ps)) d1 t0,
         1) ∧
    (t1 - t0 < dur →
      hacer_solicitud
          (estadoConEntrada dur
            (clave_cache ep (resolverParametros parametros_predeterminados ep ps)) d1 t0)
          net t1 ep ps true
        = (.ok d1,
           estadoConEntrada dur
             (clave_cache ep (resolverParametros parametros_predeterminados ep ps)) d1 t0,
           0)) ∧
    ((hacer_solicitud
        (estadoConEntrada dur
          (clave_cache ep (resolverParametros parametros_predeterminados ep ps)) d1 t0)
        net t1 ep ps true).2.2 = 0 ↔ t1 - t0 < dur) ∧
    (0 < eps →
      hacer_solicitud
          (estadoConEntrada dur
            (clave_cache ep (resolverParametros parametros_predeterminados ep ps)) d1 t0)
          net (t0 + dur + eps) ep ps true
        = (.ok d2,
           estadoConEntrada dur
             (clave_cache ep (resolverParametros parametros_predeterminados ep ps)) d2
             (t0 + dur + eps),
           1)) := by
  have hlk : List.lookup
      (clave_cache ep (resolverParametros
        (estadoConEntrada dur
          (clave_cache ep (resolverParametros parametros_predeterminados ep ps)) d1
          t0).parametros_predeterminados ep ps))
      (estadoConEntrada dur
        (clave_cache ep (resolverParametros parametros_predeterminados ep ps)) d1
        t0).cache = some (d1, t0) := by
    rw [params_estadoConEntrada, cache_estadoConEntrada]
    simp [List.lookup]
  have hdur : (estadoConEntrada dur
      (clave_cache ep (resolverParametros parametros_predeterminados ep ps)) d1
      t0).duracion_cache = dur := rfl
  refine ⟨?_, ?_, ?_, ?_⟩
  · rw [hacer_solicitud_fallo_cache (estadoInicial dur) net t0 ep ps
      (by rw [params_estadoInicial, cache_estadoInicial]; rfl)]
    rw [params_estadoInicial, h1]
    rw [cache_estadoInicial]
    simp only [pySetItem]
    rfl
  · intro hvalid
    exact hacer_solicitud_acierto_cache _ net t1 ep ps d1 t0 hlk (by rw [hdur]; exact hvalid)
  · constructor
    · intro hc
      by_contra hvalid
      rw [hacer_solicitud_expirado _ net t1 ep ps d1 t0 hlk
        (by rw [hdur]; exact hvalid)] at hc
      rw [params_estadoConEntrada] at hc
      cases hnet : net t1 ep (resolverParametros parametros_predeterminados ep ps) with
      | error e => rw [hnet] at hc; simp at hc
      | ok d => rw [hnet] at hc; simp at hc
    · intro hvalid
      rw [hacer_solicitud_acierto_cache _ net t1 ep ps d1 t0 hlk (by rw [hdur]; exact hvalid)]
  · intro heps
    rw [hacer_solicitud_expirado _ net (t0 + dur + eps) ep ps d1 t0 hlk
      (by rw [hdur]; intro hlt; linarith)]
    rw [params_estadoConEntrada, h2]
    rw [cache_estadoConEntrada]
    simp only [pySetItem, beq_self_eq_true, if_true]
    rfl

/-- C5 witness: with a 3600-second cache, after a fetch at `t=0`, the call
at `t=10` is a cache hit (payload returned, no network call, state kept)
and the call at `t=0+3600+1` refetches and overwrites the entry. -/
theorem C5_testigo :
    hacer_solicitud
        (estadoConEntrada 3600
          (clave_cache "charts/market-price"
            (resolverParametros parametros_predeterminados "charts/market-price"
              [("timespan", "7days")]))
          (Json.num 0) 0)
        netReloj 10 "charts/market-price" [("timespan", "7days")] true
      = (.ok (Json.num 0),
         estadoConEntrada 3600
           (clave_cache "charts/market-price"
             (resolverParametros parametros_predeterminados "charts/market-price"
               [("timespan", "7days")]))
           (Json.num 0) 0,
         0) ∧
    hacer_solicitud
        (estadoConEntrada 3600
          (clave_cache "charts/market-price"
            (resolverParametros parametros_predeterminados "charts/market-price"
              [("timespan", "7days")]))
          (Json.num 0) 0)
        netReloj (0 + 3600 + 1) "charts/market-price" [("timespan", "7days")] true
      = (.ok (Json.num (0 + 3600 + 1)),
         estadoConEntrada 3600
           (clave_cache "charts/market-price"
             (resolverParametros parametros_predeterminados "charts/market-price"
               [("timespan", "7days")]))
           (Json.num (0 + 3600 + 1)) (0 + 3600 + 1),
         1) := by
  have h := C5_ventana_de_cache 3600 0 10 1 "charts/market-price"
    [("timespan", "7days")] netReloj (Json.num 0) (Json.num (0 + 3600 + 1)) rfl rfl
  exact ⟨h.2.1 (by norm_num), h.2.2.2 (by norm_num)⟩

/-!
## Normalization helper lemmas
-/

theorem mapExcept_filas_obj (rows : List (List (String × Json))) :
    mapExcept (fun r => match r with
      | Json.obj fs => Except.ok fs
      | _ => Except.error PyErr.valueError) (rows.map Json.obj) = .ok rows := by
  induction rows with
  | nil => rfl
  | cons r t ih => simp [mapExcept, List.map_cons, ih]

theorem construirDataFrame_filas_obj (rows : List (List (String × Json))) :
    construirDataFrame (Json.arr (rows.map Json.obj)) = .ok (dfDeFilas rows) := by
  simp [construirDataFrame, mapExcept_filas_obj]

theorem mem_clavesEnOrden (k : String) (ks : List String) :
    ∀ seen : List String, k ∈ clavesEnOrden seen ks ↔ (k ∈ ks ∧ k ∉ seen) := by
  induction ks with
  | nil => intro seen; simp [clavesEnOrden]
  | cons a t ih =>
    intro seen
    by_cases ha : a ∈ seen
    · rw [clavesEnOrden, if_pos ha, ih seen]
      constructor
      · rintro ⟨hk, hs⟩
        exact ⟨List.mem_cons_of_mem a hk, hs⟩
      · rintro ⟨hk, hs⟩
        rcases List.mem_cons.mp hk with h | h
        · subst h; exact absurd ha hs
        · exact ⟨h, hs⟩
    · rw [clavesEnOrden, if_neg ha]
      simp only [List.mem_cons, ih (a :: seen), List.mem_cons]
      constructor
      · rintro (h | ⟨hk, hs⟩)
        · subst h; exact ⟨Or.inl rfl, ha⟩
        · refine ⟨Or.inr hk, ?_⟩
          intro hmem
          exact hs (Or.inr hmem)
      · rintro ⟨h | hk, hs⟩
        · exact Or.inl h
        · by_cases hak : k = a
          · exact Or.inl hak
          · exact Or.inr ⟨hk, fun hm => hm.elim hak hs⟩

theorem mem_fst_of_lookup_some {β : Type} (k : String) (l : List (String × β)) (v : β)
    (h : List.lookup k l = some v) : k ∈ l.map Prod.fst := by
  induction l with
  | nil => simp [List.lookup] at h
  | cons a t ih =>
    obtain ⟨a1, a2⟩ := a
    simp only [List.lookup] at h
    cases hk : (k == a1) with
    | true =>
      have : k = a1 := beq_iff_eq.mp hk
      subst this
      simp
    | false =>
      rw [hk] at h
      simpa using Or.inr (ih h)

theorem not_mem_fst_of_lookup_none {β : Type} (k : String) (l : List (String × β))
    (h : List.lookup k l = none) : k ∉ l.map Prod.fst := by
  induction l with
  | nil => simp
  | cons a t ih =>
    obtain ⟨a1, a2⟩ := a
    simp only [List.lookup] at h
    cases hk : (k == a1) with
    | true => rw [hk] at h; exact absurd h (by simp)
    | false =>
      rw [hk] at h
      have hne : k ≠ a1 := by
        intro he; subst he; simp at hk
      simp only [List.map_cons, List.mem_cons]
      rintro (he | hm)
      · exact hne he
      · exact (ih h) hm

theorem cols_dfDeFilas (rows : List (List (String × Json))) :
    (dfDeFilas rows).cols
      = clavesEnOrden [] (rows.flatMap (fun r => r.map Prod.fst)) := rfl

theorem indice_setIndexX (rows : List (List (String × Json)))
    (hx : "x" ∈ (dfDeFilas rows).cols) :
    (dfDeFilas rows).setIndexX.index = rows.map (fun r => List.lookup "x" r) := by
  have hi : (dfDeFilas rows).cols.indexOf "x" < (dfDeFilas rows).cols.length :=
    List.indexOf_lt_length.mpr hx
  have hget : (dfDeFilas rows).cols.get? ((dfDeFilas rows).cols.indexOf "x")
      = some "x" := by
    rw [List.get?_eq_get hi]
    exact congrArg some (List.indexOf_get hi)
  show ((dfDeFilas rows).data.map
      (fun r => (r.get? ((dfDeFilas rows).cols.indexOf "x")).join))
    = rows.map (fun r => List.lookup "x" r)
  have hdata : (dfDeFilas rows).data
      = rows.map (fun r => (dfDeFilas rows).cols.map (fun c => List.lookup c r)) := rfl
  rw [hdata, List.map_map]
  apply List.map_congr_left
  intro r _
  show ((((dfDeFilas rows).cols.map (fun c => List.lookup c r)).get?
      ((dfDeFilas rows).cols.indexOf "x"))).join = List.lookup "x" r
  rw [List.get?_map, hget]
  rfl

theorem toDatetimeS_numericos (labels : List (Option Json))
    (h : ∀ l ∈ labels, l = none ∨ ∃ q, l = some (Json.num q)) :
    toDatetimeS labels = .ok labels := by
  induction labels with
  | nil => rfl
  | cons a t ih =>
    have ha := h a (List.mem_cons_self a t)
    have ht := ih (fun l hl => h l (List.mem_cons_of_mem a hl))
    unfold toDatetimeS at ht ⊢
    rcases ha with ha | ⟨q, ha⟩ <;> subst ha <;> simp [mapExcept, ht]

theorem asegurarColumnaY_indice (df : DataFrame) :
    df.asegurarColumnaY.index = df.index := by
  unfold DataFrame.asegurarColumnaY
  split
  · rfl
  · split
    · rfl
    · split <;> rfl

theorem asegurarColumnaY_datos (df : DataFrame) :
    df.asegurarColumnaY.data = df.data := by
  unfold DataFrame.asegurarColumnaY
  split
  · rfl
  · split
    · rfl
    · split <;> rfl

/-- C7 (counterexample): the normalization step does not sort — a payload
whose `x` fields arrive out of order is accepted and produces a time index
in payload order, here `[100, 50]`, which is not monotonically
non-decreasing. -/
theorem C7_contraejemplo_indice_desordenado :
    procesar_datos_grafico (estadoInicial 3600)
        (Json.obj [("values", Json.arr
          [Json.obj [("x", Json.num 100), ("y", Json.num 1)],
           Json.obj [("x", Json.num 50), ("y", Json.num 2)]])])
      = (.ok (DataFrame.mk ["y"] [some (Json.num 100), some (Json.num 50)]
          [[some (Json.num 1)], [some (Json.num 2)]]), estadoInicial 3600) ∧
    ¬ IndiceMonotono [some (Json.num 100), some (Json.num 50)] := by
  constructor
  · rfl
  · intro h
    unfold IndiceMonotono at h
    rw [List.chain'_cons] at h
    exact absurd (h.1 100 50 rfl rfl) (by norm_num)

/-- C7 (amended): the time index of the normalized table is the payload's
`x` values in payload order (converted to timestamps); hence it is
monotonically non-decreasing whenever the `x` fields arrive in
non-decreasing order — which the code assumes but does not enforce
(see the counterexample for an out-of-order payload). -/
theorem C7_indice_monotono_si_x_ordenado (rows : List (List (String × Json)))
    (xs : List ℚ)
    (hx : rows.map (fun r => List.lookup "x" r) = xs.map (fun q => some (Json.num q)))
    (hord : List.Chain' (· ≤ ·) xs) :
    ∃ df : DataFrame,
      procesar_datos_grafico (estadoInicial 3600)
          (Json.obj [("values", Json.arr (rows.map Json.obj))])
        = (.ok df, estadoInicial 3600) ∧
      df.index = xs.map (fun q => some (Json.num q)) ∧
      IndiceMonotono df.index := by
  cases rows with
  | nil =>
    have hxs : xs = [] := by
      cases xs with
      | nil => rfl
      | cons q t => simp at hx
    subst hxs
    exact ⟨DataFrame.vacio, rfl, rfl, by simp [IndiceMonotono, DataFrame.vacio]⟩
  | cons r0 rest =>
    cases xs with
    | nil => simp at hx
    | cons q0 qs =>
      rw [List.map_cons, List.map_cons] at hx
      injection hx with hx0 hxrest
      have hmem : "x" ∈ ((r0 :: rest).flatMap (fun r => r.map Prod.fst)) := by
        have hm := mem_fst_of_lookup_some "x" r0 _ hx0
        rw [List.flatMap_cons]
        exact List.mem_append.mpr (Or.inl hm)
      have hxcol : "x" ∈ (dfDeFilas (r0 :: rest)).cols := by
        rw [cols_dfDeFilas]
        exact (mem_clavesEnOrden "x" _ []).mpr ⟨hmem, by simp⟩
      have hidx : (dfDeFilas (r0 :: rest)).setIndexX.index
          = (q0 :: qs).map (fun q => some (Json.num q)) := by
        rw [indice_setIndexX _ hxcol, List.map_cons, List.map_cons, hx0, hxrest]
      have hnums : ∀ l ∈ (dfDeFilas (r0 :: rest)).setIndexX.index,
          l = none ∨ ∃ q, l = some (Json.num q) := by
        rw [hidx]
        intro l hl
        rcases List.mem_map.mp hl with ⟨q, _, rfl⟩
        exact Or.inr ⟨q, rfl⟩
      have hdt := toDatetimeS_numericos _ hnums
      have hreg : registrarMetadatos (estadoInicial 3600)
          (Json.obj [("values", Json.arr ((r0 :: rest).map Json.obj))])
          = .ok (estadoInicial 3600) := rfl
      have hget : pyGetItem
          (Json.obj [("values", Json.arr ((r0 :: rest).map Json.obj))]) "values"
          = .ok (Json.arr ((r0 :: rest).map Json.obj)) := rfl
      refine ⟨(dfDeFilas (r0 :: rest)).setIndexX.asegurarColumnaY, ?_, ?_, ?_⟩
      · simp only [procesar_datos_grafico, construirDfTiempo, hreg, hget,
          construirDataFrame_filas_obj, hdt, hxcol, if_true]
      · rw [asegurarColumnaY_indice]
        exact hidx
      · rw [asegurarColumnaY_indice, hidx]
        unfold IndiceMonotono
        rw [List.chain'_map]
        refine hord.imp ?_
        intro a b hab qa qb hqa hqb
        have ha : a = qa := Json.num.inj (Option.some.inj hqa)
        have hb : b = qb := Json.num.inj (Option.some.inj hqb)
        rw [← ha, ← hb]
        exact hab

/-- C7 witness: a two-point payload with ordered `x` values `1 ≤ 2`
normalizes to the expected table and its index is monotone. -/
theorem C7_testigo :
    procesar_datos_grafico (estadoInicial 3600)
        (Json.obj [("values", Json.arr
          [Json.obj [("x", Json.num 1), ("y", Json.num 10)],
           Json.obj [("x", Json.num 2), ("y", Json.num 20)]])])
      = (.ok (DataFrame.mk ["y"] [some (Json.num 1), some (Json.num 2)]
          [[some (Json.num 10)], [some (Json.num 20)]]), estadoInicial 3600) ∧
    IndiceMonotono [some (Json.num 1), some (Json.num 2)] := by
  constructor
  · rfl
  · obtain ⟨df, _, hidx, hmono⟩ := C7_indice_monotono_si_x_ordenado
      [[("x", Json.num 1), ("y", Json.num 10)], [("x", Json.num 2), ("y", Json.num 20)]]
      [1, 2] rfl (by rw [List.chain'_cons]; refine ⟨by norm_num, by simp⟩)
    rw [hidx] at hmono
    exact hmono

theorem lt_length_de_columnasNumericas (df : DataFrame) (i : ℕ) (rest : List ℕ)
    (h : df.columnasNumericas = i :: rest) : i < df.cols.length := by
  have hm : i ∈ df.columnasNumericas := by
    rw [h]; exact List.mem_cons_self i rest
  unfold DataFrame.columnasNumericas at hm
  exact List.mem_range.mp (List.mem_of_mem_filter hm)

theorem mem_set_de_lt {α : Type} (l : List α) (i : ℕ) (a : α) (h : i < l.length) :
    a ∈ l.set i a := by
  have hg : (l.set i a).get? i = some a := by
    rw [List.get?_eq_getElem?, List.getElem?_set_self']
    simp [List.getElem?_eq_getElem h]
  exact List.get?_mem hg

theorem asegurarColumnaY_especificacion (df : DataFrame) (hy : "y" ∉ df.cols) :
    (df.columnasNumericas = [] → df.asegurarColumnaY = df) ∧
    (∀ i rest, df.columnasNumericas = i :: rest →
      df.asegurarColumnaY.cols = df.cols.set i "y" ∧
      "y" ∈ df.asegurarColumnaY.cols ∧
      df.asegurarColumnaY.index = df.index ∧
      df.asegurarColumnaY.data = df.data) := by
  constructor
  · intro h0
    unfold DataFrame.asegurarColumnaY
    rw [if_neg hy]
    by_cases he : df.cols.isEmpty
    · simp [he]
    · simp [he, h0]
  · intro i rest h
    have hlt := lt_length_de_columnasNumericas df i rest h
    have hne : df.cols.isEmpty = false := by
      cases hc : df.cols with
      | nil => rw [hc] at hlt; simp at hlt
      | cons a t => simp [hc]
    have heq : df.asegurarColumnaY = { df with cols := df.cols.set i "y" } := by
      unfold DataFrame.asegurarColumnaY
      rw [if_neg hy]
      simp [hne, h]
    rw [heq]
    exact ⟨rfl, mem_set_de_lt df.cols i "y" hlt, rfl, rfl⟩

/-- C8 (counterexample): a payload whose rows carry no `'y'` column can
still make the normalization step raise — a non-numeric string in the `x`
field aborts `pd.to_datetime(..., unit='s')` with `ValueError` instead of
returning a table. -/
theorem C8_contraejemplo_x_no_numerico :
    List.lookup "y" [("x", Json.str "oops")] = none ∧
    procesar_datos_grafico (estadoInicial 3600)
        (Json.obj [("values", Json.arr [Json.obj [("x", Json.str "oops")]])])
      = (.error .valueError, estadoInicial 3600) := ⟨rfl, rfl⟩

/-- C8 (amended): for a payload whose rows carry no `'y'` column and whose
`x` cells (when present) are numeric, normalization returns a table; if
that table has at least one numeric column the first numeric column is
renamed to `'y'` (labels only — index and cells untouched), and with zero
numeric columns the table is returned unchanged. A non-numeric `x` cell
instead raises inside the time conversion (see counterexample). -/
theorem C8_columna_canonica (rows : List (List (String × Json)))
    (hy : ∀ r ∈ rows, List.lookup "y" r = none)
    (hx : ∀ r ∈ rows, ∀ v, List.lookup "x" r = some v → ∃ q, v = Json.num q) :
    ∃ dfm : DataFrame,
      construirDfTiempo (Json.arr (rows.map Json.obj)) = .ok dfm ∧
      procesar_datos_grafico (estadoInicial 3600)
          (Json.obj [("values", Json.arr (rows.map Json.obj))])
        = (.ok dfm.asegurarColumnaY, estadoInicial 3600) ∧
      "y" ∉ dfm.cols ∧
      (dfm.columnasNumericas = [] → dfm.asegurarColumnaY = dfm) ∧
      (∀ i rest, dfm.columnasNumericas = i :: rest →
        dfm.asegurarColumnaY.cols = dfm.cols.set i "y" ∧
        "y" ∈ dfm.asegurarColumnaY.cols ∧
        dfm.asegurarColumnaY.index = dfm.index ∧
        dfm.asegurarColumnaY.data = dfm.data) := by
  have hreg : registrarMetadatos (estadoInicial 3600)
      (Json.obj [("values", Json.arr (rows.map Json.obj))])
      = .ok (estadoInicial 3600) := rfl
  have hget : pyGetItem
      (Json.obj [("values", Json.arr (rows.map Json.obj))]) "values"
      = .ok (Json.arr (rows.map Json.obj)) := rfl
  have hy0 : "y" ∉ (dfDeFilas rows).cols := by
    rw [cols_dfDeFilas]
    intro hmem
    obtain ⟨hflat, -⟩ := (mem_clavesEnOrden "y" _ []).mp hmem
    obtain ⟨r, hr, hyr⟩ := List.mem_flatMap.mp hflat
    exact not_mem_fst_of_lookup_none "y" r (hy r hr) hyr
  by_cases hxc : "x" ∈ (dfDeFilas rows).cols
  · have hnums : ∀ l ∈ (dfDeFilas rows).setIndexX.index,
        l = none ∨ ∃ q, l = some (Json.num q) := by
      rw [indice_setIndexX rows hxc]
      intro l hl
      obtain ⟨r, hr, rfl⟩ := List.mem_map.mp hl
      cases hlu : List.lookup "x" r with
      | none => exact Or.inl rfl
      | some v =>
        obtain ⟨q, rfl⟩ := hx r hr v hlu
        exact Or.inr ⟨q, rfl⟩
    have hdt := toDatetimeS_numericos _ hnums
    have hysi : "y" ∉ (dfDeFilas rows).setIndexX.cols := by
      intro hmem
      exact hy0 (List.eraseIdx_subset _ _ hmem)
    have hcdt : construirDfTiempo (Json.arr (rows.map Json.obj))
        = .ok (dfDeFilas rows).setIndexX := by
      simp only [construirDfTiempo, construirDataFrame_filas_obj, hxc, if_true, hdt]
    refine ⟨(dfDeFilas rows).setIndexX, hcdt, ?_, hysi,
      (asegurarColumnaY_especificacion _ hysi).1,
      (asegurarColumnaY_especificacion _ hysi).2⟩
    simp only [procesar_datos_grafico, hreg, hget, hcdt]
  · have hcdt : construirDfTiempo (Json.arr (rows.map Json.obj))
        = .ok (dfDeFilas rows) := by
      simp only [construirDfTiempo, construirDataFrame_filas_obj, hxc, if_false]
    refine ⟨dfDeFilas rows, hcdt, ?_, hy0,
      (asegurarColumnaY_especificacion _ hy0).1,
      (asegurarColumnaY_especificacion _ hy0).2⟩
    simp only [procesar_datos_grafico, hreg, hget, hcdt]

/-- C8 witness: a one-row payload `(x=1, valor=5)` with no `'y'` column
normalizes, and its single numeric column `valor` is renamed to `'y'`. -/
theorem C8_testigo :
    procesar_datos_grafico (estadoInicial 3600)
        (Json.obj [("values", Json.arr
          [Json.obj [("x", Json.num 1), ("valor", Json.num 5)]])])
      = (.ok (DataFrame.mk ["y"] [some (Json.num 1)] [[some (Json.num 5)]]),
         estadoInicial 3600) ∧
    "y" ∈ (DataFrame.mk ["y"] [some (Json.num 1)] [[some (Json.num 5)]]).cols := by
  obtain ⟨dfm, hc, hp, hyn, h0, h1⟩ := C8_columna_canonica
    [[("x", Json.num 1), ("valor", Json.num 5)]]
    (by
      intro r hr
      rw [List.mem_singleton] at hr
      subst hr
      rfl)
    (by
      intro r hr v hv
      rw [List.mem_singleton] at hr
      subst hr
      have : some (Json.num 1) = some v := by rw [← hv]; rfl
      exact ⟨1, (Option.some.inj this).symm⟩)
  have hdfm : dfm = DataFrame.mk ["valor"] [some (Json.num 1)] [[some (Json.num 5)]] :=
    Except.ok.inj (hc.symm.trans (rfl :
      construirDfTiempo (Json.arr
        ([[("x", Json.num 1), ("valor", Json.num 5)]].map Json.obj))
        = .ok (DataFrame.mk ["valor"] [some (Json.num 1)] [[some (Json.num 5)]])))
  subst hdfm
  obtain ⟨hcols, hmem, hidx, hdata⟩ := h1 0 [] rfl
  exact ⟨hp, hmem⟩

/-!
## Pools helper lemmas
-/

theorem lookup_none_de_no_mem {β : Type} (k : String) (l : List (String × β))
    (h : k ∉ l.map Prod.fst) : List.lookup k l = none := by
  cases hl : List.lookup k l with
  | none => rfl
  | some v => exact absurd (mem_fst_of_lookup_some k l v hl) h

theorem pySetItem_ausente {β : Type} (l : List (String × β)) (k : String) (v : β)
    (h : List.lookup k l = none) : pySetItem l k v = l ++ [(k, v)] := by
  induction l with
  | nil => rfl
  | cons a t ih =>
    obtain ⟨a1, a2⟩ := a
    simp only [List.lookup] at h
    cases hk : (k == a1) with
    | true => rw [hk] at h; exact absurd h (by simp)
    | false =>
      rw [hk] at h
      have hne : a1 ≠ k := by
        intro he; subst he; simp at hk
      have hbeq : (a1 == k) = false := beq_eq_false_iff_ne.mpr hne
      simp only [pySetItem, hbeq, Bool.false_eq_true, if_false, List.cons_append,
        List.cons.injEq, true_and]
      exact ih h

theorem lookup_pySetItem_mismo {β : Type} (l : List (String × β)) (k : String) (v : β) :
    List.lookup k (pySetItem l k v) = some v := by
  induction l with
  | nil => simp [pySetItem, List.lookup]
  | cons a t ih =>
    obtain ⟨a1, a2⟩ := a
    by_cases hk : a1 = k
    · subst hk
      simp [pySetItem, List.lookup]
    · have hbeq : (a1 == k) = false := beq_eq_false_iff_ne.mpr hk
      have hbeq2 : (k == a1) = false := beq_eq_false_iff_ne.mpr (Ne.symm hk)
      simp only [pySetItem, hbeq, Bool.false_eq_true, if_false, List.lookup, hbeq2]
      exact ih

theorem lookup_pySetItem_otro {β : Type} (l : List (String × β)) (k k2 : String) (v : β)
    (h : k ≠ k2) : List.lookup k (pySetItem l k2 v) = List.lookup k l := by
  induction l with
  | nil => simp [pySetItem, List.lookup, beq_eq_false_iff_ne.mpr h]
  | cons a t ih =>
    obtain ⟨a1, a2⟩ := a
    by_cases hk : a1 = k2
    · subst hk
      simp only [pySetItem, beq_self_eq_true, if_true, List.lookup,
        beq_eq_false_iff_ne.mpr h]
    · have hbeq : (a1 == k2) = false := beq_eq_false_iff_ne.mpr hk
      simp only [pySetItem, hbeq, Bool.false_eq_true, if_false, List.lookup]
      cases hka : (k == a1) with
      | true => rfl
      | false => exact ih

theorem parametrosPools_cors (params : List (String × String)) :
    List.lookup "cors" (parametrosPools params) = some "true" := by
  unfold parametrosPools
  exact lookup_pySetItem_mismo _ "cors" "true"

theorem parametrosPools_timespan (params : List (String × String))
    (h : List.lookup "timespan" params = none) :
    List.lookup "timespan" (parametrosPools params) = some "4days" := by
  unfold parametrosPools
  rw [h]
  simp only [Option.isNone_none, if_true]
  rw [lookup_pySetItem_otro _ "timespan" "cors" "true" (by decide)]
  exact lookup_pySetItem_mismo params "timespan" "4days"

theorem insertarDesc_perm {κ : Type} (le : κ → κ → Bool) (x : String × κ)
    (l : List (String × κ)) : (insertarDesc le x l).Perm (x :: l) := by
  induction l with
  | nil => simp [insertarDesc]
  | cons y ys ih =>
    rw [insertarDesc]
    by_cases hle : le y.2 x.2
    · rw [if_pos hle]
    · rw [if_neg hle]
      exact (ih.cons y).trans (List.Perm.swap x y ys)

theorem ordenDesc_perm {κ : Type} (le : κ → κ → Bool) (l : List (String × κ)) :
    (ordenDesc le l).Perm l := by
  induction l with
  | nil => simp [ordenDesc]
  | cons x xs ih =>
    rw [ordenDesc]
    exact (insertarDesc_perm le x (ordenDesc le xs)).trans (ih.cons x)

theorem insertarDesc_cadena {κ : Type} (le : κ → κ → Bool)
    (htot : ∀ a b, le a b = false → le b a = true)
    (x : String × κ) (l : List (String × κ))
    (h : List.Chain' (fun a b => le b.2 a.2 = true) l) :
    List.Chain' (fun a b => le b.2 a.2 = true) (insertarDesc le x l) := by
  induction l with
  | nil => simp [insertarDesc]
  | cons y ys ih =>
    rw [insertarDesc]
    by_cases hle : le y.2 x.2
    · rw [if_pos hle]
      exact List.chain'_cons.mpr ⟨hle, h⟩
    · rw [if_neg hle]
      have hyx : le x.2 y.2 = true := htot _ _ (by simpa using hle)
      have hins := ih h.tail
      refine List.chain'_cons'.mpr ⟨?_, hins⟩
      intro b hb
      cases ys with
      | nil =>
        simp [insertarDesc] at hb
        subst hb
        exact hyx
      | cons z zs =>
        rw [insertarDesc] at hb
        by_cases hlz : le z.2 x.2
        · rw [if_pos hlz] at hb
          simp at hb
          subst hb
          exact hyx
        · rw [if_neg hlz] at hb
          simp at hb
          subst hb
          exact (List.chain'_cons.mp h).1

theorem ordenDesc_cadena {κ : Type} (le : κ → κ → Bool)
    (htot : ∀ a b, le a b = false → le b a = true) (l : List (String × κ)) :
    List.Chain' (fun a b => le b.2 a.2 = true) (ordenDesc le l) := by
  induction l with
  | nil => simp [ordenDesc]
  | cons x xs ih =>
    rw [ordenDesc]
    exact insertarDesc_cadena le htot x (ordenDesc le xs) ih

theorem mapOption_valores_num (rows : List (String × Json))
    (h : ∀ r ∈ rows, ∃ q, r.2 = Json.num q) :
    ∃ nums : List (String × ℚ),
      mapOption (fun r => match r.2 with
        | Json.num q => some (r.1, q)
        | _ => none) rows = some nums ∧
      nums.map (fun r => (r.1, Json.num r.2)) = rows := by
  induction rows with
  | nil => exact ⟨[], rfl, rfl⟩
  | cons r t ih =>
    obtain ⟨q, hq⟩ := h r (List.mem_cons_self r t)
    obtain ⟨nums, hm, hb⟩ := ih (fun x hx => h x (List.mem_cons_of_mem r hx))
    refine ⟨(r.1, q) :: nums, ?_, ?_⟩
    · simp [mapOption, hq, hm]
    · simp only [List.map_cons, hb, List.cons.injEq, and_true]
      exact Prod.ext rfl hq.symm

theorem ordenarPoolsDesc_numerico (rows : List (String × Json))
    (h : ∀ r ∈ rows, ∃ q, r.2 = Json.num q) :
    ∃ sorted : List (String × Json),
      ordenarPoolsDesc rows = .ok sorted ∧ sorted.Perm rows ∧
      List.Chain' (fun a b => ∀ qa qb,
        a.2 = Json.num qa → b.2 = Json.num qb → qb ≤ qa) sorted := by
  by_cases hlen : rows.length ≤ 1
  · refine ⟨rows, by rw [ordenarPoolsDesc, if_pos hlen], List.Perm.refl rows, ?_⟩
    cases rows with
    | nil => simp
    | cons a t =>
      cases t with
      | nil => simp
      | cons b u => simp at hlen
  · obtain ⟨nums, hm, hb⟩ := mapOption_valores_num rows h
    have htot : ∀ a b : ℚ, decide (a ≤ b) = false → decide (b ≤ a) = true := by
      intro a b hab
      simp only [decide_eq_false_iff_not, not_le] at hab
      simp [le_of_lt hab]
    refine ⟨(ordenDesc (fun a b => decide (a ≤ b)) nums).map
        (fun r => (r.1, Json.num r.2)), ?_, ?_, ?_⟩
    · rw [ordenarPoolsDesc, if_neg hlen, hm]
    · exact ((ordenDesc_perm _ nums).map _).trans (hb ▸ List.Perm.refl _)
    · rw [List.chain'_map]
      refine (ordenDesc_cadena (fun a b => decide (a ≤ b)) htot nums).imp ?_
      intro a b hab qa qb hqa hqb
      have ha : a.2 = qa := Json.num.inj hqa
      have hb2 : b.2 = qb := Json.num.inj hqb
      rw [← ha, ← hb2]
      exact of_decide_eq_true hab

theorem construirFilasPools_filterMap (fields : List (String × Json)) :
    (fields.map Prod.fst).Nodup →
    ∀ acc : List (String × Json),
      (∀ p ∈ acc, p.1 ∉ fields.map Prod.fst) →
      construirFilasPools acc fields = acc ++ fields.filterMap extraerPool := by
  induction fields with
  | nil =>
    intro _ acc _
    simp [construirFilasPools]
  | cons f rest ih =>
    intro hnd acc hdisj
    obtain ⟨pool, info⟩ := f
    rw [List.map_cons, List.nodup_cons] at hnd
    obtain ⟨hpool, hnd'⟩ := hnd
    have hlp : List.lookup pool acc = none := by
      apply lookup_none_de_no_mem
      intro hmem
      obtain ⟨p, hp, hpk⟩ := List.mem_map.mp hmem
      exact hdisj p hp (by rw [hpk]; simp)
    have hstep : ∀ v : Json,
        construirFilasPools (pySetItem acc pool v) rest
          = acc ++ (pool, v) :: rest.filterMap extraerPool := by
      intro v
      rw [pySetItem_ausente acc pool v hlp]
      rw [ih hnd' (acc ++ [(pool, v)]) ?hd]
      · rw [List.append_assoc]
        rfl
      case hd =>
        intro p hp
        rcases List.mem_append.mp hp with hp | hp
        · intro hm
          exact hdisj p hp (List.mem_cons_of_mem _ hm)
        · rw [List.mem_singleton] at hp
          subst hp
          exact hpool
    have htl : construirFilasPools acc rest = acc ++ rest.filterMap extraerPool := by
      apply ih hnd' acc
      intro p hp hm
      exact hdisj p hp (List.mem_cons_of_mem _ hm)
    cases info with
    | num q =>
      show construirFilasPools (pySetItem acc pool (Json.num q)) rest
        = acc ++ List.filterMap extraerPool ((pool, Json.num q) :: rest)
      rw [hstep (Json.num q)]
      rfl
    | str v =>
      show construirFilasPools acc rest
        = acc ++ List.filterMap extraerPool ((pool, Json.str v) :: rest)
      rw [htl]
      rfl
    | arr xs =>
      show construirFilasPools acc rest
        = acc ++ List.filterMap extraerPool ((pool, Json.arr xs) :: rest)
      rw [htl]
      rfl
    | obj o =>
      cases hro : List.lookup "relativeSize" o with
      | some v =>
        have hl : construirFilasPools acc ((pool, Json.obj o) :: rest)
            = construirFilasPools (pySetItem acc pool v) rest := by
          rw [construirFilasPools, hro]
        rw [hl, hstep v]
        simp [List.filterMap_cons, extraerPool, hro]
      | none =>
        have hl : construirFilasPools acc ((pool, Json.obj o) :: rest)
            = construirFilasPools acc rest := by
          rw [construirFilasPools, hro]
        rw [hl, htl]
        simp [List.filterMap_cons, extraerPool, hro]

/-- C9: `obtener_pools` normalizes both raw shapes (bare number, or object
carrying a numeric `relativeSize`) into one `relativeSize` table sorted
descending by value, skips entries of neither shape, defaults `timespan`
to `'4days'` when unspecified, always forces `cors='true'`, and returns an
empty-but-typed `relativeSize` table when no valid entry exists. -/
theorem C9_pools_doble_forma (dur t : ℚ) (params : List (String × String))
    (fields : List (String × Json)) (net : Net)
    (hnet : net t "pools"
      (resolverParametros parametros_predeterminados "pools" (parametrosPools params))
      = .ok (Json.obj fields))
    (hnd : (fields.map Prod.fst).Nodup)
    (hshape : ∀ f ∈ fields, ∀ o, f.2 = Json.obj o →
      ∀ v, List.lookup "relativeSize" o = some v → ∃ q, v = Json.num q) :
    List.lookup "cors" (parametrosPools params) = some "true" ∧
    (List.lookup "timespan" params = none →
      List.lookup "timespan" (parametrosPools params) = some "4days") ∧
    (fields.filterMap extraerPool = [] →
      (obtener_pools (estadoInicial dur) net t params).1 = DataFrame.vacioPools ∧
      (obtener_pools (estadoInicial dur) net t params).2.2 = 1) ∧
    (fields.filterMap extraerPool ≠ [] →
      (obtener_pools (estadoInicial dur) net t params).1.cols = ["relativeSize"] ∧
      PoolsDescendente (obtener_pools (estadoInicial dur) net t params).1 ∧
      ((obtener_pools (estadoInicial dur) net t params).1.index.zip
          (obtener_pools (estadoInicial dur) net t params).1.data).Perm
        ((fields.filterMap extraerPool).map
          (fun r => (some (Json.str r.1), [some r.2]))) ∧
      (obtener_pools (estadoInicial dur) net t params).2.2 = 1) := by
  have hhs : hacer_solicitud (estadoInicial dur) net t "pools" (parametrosPools params) true
      = (.ok (Json.obj fields),
         { estadoInicial dur with cache :=
             (pySetItem (estadoInicial dur).cache
               (clave_cache "pools"
                 (resolverParametros parametros_predeterminados "pools"
                   (parametrosPools params)))
               (Json.obj fields, t)) },
         1) := by
    rw [hacer_solicitud_fallo_cache (estadoInicial dur) net t "pools" (parametrosPools params)
      (by rw [params_estadoInicial, cache_estadoInicial]; rfl)]
    rw [params_estadoInicial, hnet]
    rfl
  have hfilas : construirFilasPools [] fields = fields.filterMap extraerPool :=
    construirFilasPools_filterMap fields hnd []
      (by intro p hp; exact absurd hp (List.not_mem_nil p))
  refine ⟨parametrosPools_cors params, parametrosPools_timespan params, ?_, ?_⟩
  · intro hF
    have hrun : obtener_pools_run (estadoInicial dur) net t params
        = (.ok DataFrame.vacioPools,
           { estadoInicial dur with cache :=
               (pySetItem (estadoInicial dur).cache
                 (clave_cache "pools"
                   (resolverParametros parametros_predeterminados "pools"
                     (parametrosPools params)))
                 (Json.obj fields, t)) },
           1) := by
      simp only [obtener_pools_run, hhs, hfilas, hF, List.isEmpty_nil, if_true]
    constructor
    · simp only [obtener_pools, hrun]
    · simp only [obtener_pools, hrun]
  · intro hF
    have hne : (fields.filterMap extraerPool).isEmpty = false := by
      cases h : fields.filterMap extraerPool with
      | nil => exact absurd h hF
      | cons a u => rfl
    have hnum : ∀ r ∈ fields.filterMap extraerPool, ∃ q, r.2 = Json.num q := by
      intro r hr
      obtain ⟨f, hf, hex⟩ := List.mem_filterMap.mp hr
      obtain ⟨p, info⟩ := f
      cases info with
      | num q =>
        simp only [extraerPool, Option.some.injEq] at hex
        exact ⟨q, by rw [← hex]⟩
      | str v =>
        rw [show extraerPool (p, Json.str v) = none from rfl] at hex
        exact absurd hex (by simp)
      | arr xs =>
        rw [show extraerPool (p, Json.arr xs) = none from rfl] at hex
        exact absurd hex (by simp)
      | obj o =>
        simp only [extraerPool, Option.map_eq_some'] at hex
        obtain ⟨v, hlv, hr2⟩ := hex
        obtain ⟨q, hq⟩ := hshape (p, Json.obj o) hf o rfl v hlv
        subst hq
        exact ⟨q, by rw [← hr2]⟩
    obtain ⟨sorted, hok, hperm, hchain⟩ :=
      ordenarPoolsDesc_numerico (fields.filterMap extraerPool) hnum
    have hrun : obtener_pools_run (estadoInicial dur) net t params
        = (.ok (dfPools sorted),
           { estadoInicial dur with cache :=
               (pySetItem (estadoInicial dur).cache
                 (clave_cache "pools"
                   (resolverParametros parametros_predeterminados "pools"
                     (parametrosPools params)))
                 (Json.obj fields, t)) },
           1) := by
      simp only [obtener_pools_run, hhs, hfilas, hne, Bool.false_eq_true, if_false, hok]
    have hP : obtener_pools (estadoInicial dur) net t params
        = (dfPools sorted,
           { estadoInicial dur with cache :=
               (pySetItem (estadoInicial dur).cache
                 (clave_cache "pools"
                   (resolverParametros parametros_predeterminados "pools"
                     (parametrosPools params)))
                 (Json.obj fields, t)) },
           1) := by
      simp only [obtener_pools, hrun]
    refine ⟨by simp [hP, dfPools], ?_, ?_, by simp [hP]⟩
    · rw [hP]
      show PoolsDescendente (dfPools sorted)
      unfold PoolsDescendente
      show List.Chain' _ (sorted.map (fun r => [some r.2]))
      refine (List.chain'_map _).mpr (hchain.imp ?_)
      intro a b hab qa qb hqa hqb
      have h1 : some a.2 = some (Json.num qa) := by injection hqa
      have h2 : some b.2 = some (Json.num qb) := by injection hqb
      exact hab qa qb (Option.some.inj h1) (Option.some.inj h2)
    · rw [hP]
      show ((dfPools sorted).index.zip (dfPools sorted).data).Perm _
      have hzip : (dfPools sorted).index.zip (dfPools sorted).data
          = sorted.map (fun r => (some (Json.str r.1), [some r.2])) := by
        show (sorted.map (fun r => some (Json.str r.1))).zip
            (sorted.map (fun r => [some r.2]))
          = sorted.map (fun r => (some (Json.str r.1), [some r.2]))
        rw [List.zip_map']
      rw [hzip]
      exact hperm.map _

/-- C9 witness: the specification example
`PoolA ↦ relativeSize 12.5 (nested object), PoolB ↦ 7.5 (bare number)`
yields the two-row table `[PoolA: 12.5, PoolB: 7.5]` sorted descending,
with one network call, `cors` forced and `timespan` defaulted. -/
theorem C9_testigo :
    (obtener_pools (estadoInicial 3600) netPoolsEjemplo 0 []).1
      = dfPools [("PoolA", Json.num doceComaCinco), ("PoolB", Json.num sieteComaCinco)] ∧
    (obtener_pools (estadoInicial 3600) netPoolsEjemplo 0 []).2.2 = 1 ∧
    PoolsDescendente (obtener_pools (estadoInicial 3600) netPoolsEjemplo 0 []).1 ∧
    List.lookup "cors" (parametrosPools []) = some "true" ∧
    List.lookup "timespan" (parametrosPools []) = some "4days" := by
  have h := C9_pools_doble_forma 3600 0 []
    [("PoolA", Json.obj [("relativeSize", Json.num doceComaCinco)]),
     ("PoolB", Json.num sieteComaCinco)]
    netPoolsEjemplo rfl (by decide)
    (by
      intro f hf o ho v hv
      rcases List.mem_cons.mp hf with h1 | h1
      · subst h1
        have ho2 := Json.obj.inj ho
        rw [← ho2] at hv
        have hv2 : some (Json.num doceComaCinco) = some v := by rw [← hv]; rfl
        exact ⟨doceComaCinco, (Option.some.inj hv2).symm⟩
      · rcases List.mem_cons.mp h1 with h2 | h2
        · subst h2
          exact Json.noConfusion ho
        · exact absurd h2 (List.not_mem_nil f))
  have hfm : ([("PoolA", Json.obj [("relativeSize", Json.num doceComaCinco)]),
      ("PoolB", Json.num sieteComaCinco)].filterMap extraerPool)
      = [("PoolA", Json.num doceComaCinco), ("PoolB", Json.num sieteComaCinco)] := rfl
  have hne : ([("PoolA", Json.obj [("relativeSize", Json.num doceComaCinco)]),
      ("PoolB", Json.num sieteComaCinco)].filterMap extraerPool) ≠ [] := by
    rw [hfm]
    exact List.cons_ne_nil _ _
  exact ⟨by rfl, (h.2.2.2 hne).2.2.2, (h.2.2.2 hne).2.1, h.1, h.2.1 rfl⟩

theorem obtener_pools_run_cols (s : APIState) (net : Net) (t : ℚ)
    (params : List (String × String)) (df : DataFrame) (s2 : APIState) (n : ℕ)
    (h : obtener_pools_run s net t params = (.ok df, s2, n)) :
    df.cols = ["relativeSize"] := by
  simp only [obtener_pools_run] at h
  split at h
  · simp at h
  · split at h
    · injection h with h1 h2
      injection h1 with h1
      rw [← h1]
      rfl
    · split at h
      · injection h with h1 h2
        injection h1 with h1
        rw [← h1]
        rfl
      · simp at h

theorem validarDatos_sin_datos (fs : List (String × Json))
    (h : List.lookup "values" fs = none ∨ List.lookup "values" fs = some (Json.arr [])) :
    validarDatos (Json.obj fs) = .ok false := by
  unfold validarDatos
  by_cases hfe : fs.isEmpty
  · simp [pyTruthy, hfe]
  · rcases h with h | h
    · simp [pyTruthy, hfe, pyContains, h]
    · simp [pyTruthy, hfe, pyContains, h, pyGetItem]

/-- C6: the never-raises contract. Both public operations are total
functions into typed tables: any exception in the `try:` body of either
operation is absorbed into the corresponding empty frame; `obtener_pools`
always produces a frame whose single column is `relativeSize` (network
down → empty typed table with exactly one request attempted); and for any
instance state — even one where the day-averaging attribute exists —
a network failure, an absent `values` collection or an empty `values`
collection all make `obtener_grafico` return the empty frame. -/
theorem C6_contrato_sin_excepciones (s : APIState) (net : Net) (t : ℚ)
    (nombre : String) (params : List (String × String)) (fs : List (String × Json)) :
    (obtener_pools s net t params).1.cols = ["relativeSize"] ∧
    (∀ e, (obtener_grafico_run s net t nombre params).1 = .error e →
      (obtener_grafico s net t nombre params).1 = DataFrame.vacio) ∧
    (∀ e, (obtener_pools_run s net t params).1 = .error e →
      (obtener_pools s net t params).1 = DataFrame.vacioPools) ∧
    (s.cache = [] →
      net t "pools" (resolverParametros s.parametros_predeterminados "pools"
        (parametrosPools params)) = .error () →
      obtener_pools s net t params = (DataFrame.vacioPools, s, 1)) ∧
    (s.cache = [] → (∀ ep qs, net t ep qs = .error ()) →
      (obtener_grafico s net t nombre params).1 = DataFrame.vacio) ∧
    (s.cache = [] →
      (List.lookup "values" fs = none ∨ List.lookup "values" fs = some (Json.arr [])) →
      (∀ ep qs, net t ep qs = .ok (Json.obj fs)) →
      (obtener_grafico s net t nombre params).1 = DataFrame.vacio) := by
  refine ⟨?_, ?_, ?_, ?_, ?_, ?_⟩
  · cases hr : obtener_pools_run s net t params with
    | mk r rest =>
      obtain ⟨s2, n⟩ := rest
      cases r with
      | ok df =>
        have hcols := obtener_pools_run_cols s net t params df s2 n hr
        simp only [obtener_pools, hr]
        exact hcols
      | error e => simp only [obtener_pools, hr, DataFrame.vacioPools]
  · intro e he
    cases hr : obtener_grafico_run s net t nombre params with
    | mk r rest =>
      obtain ⟨s2, n⟩ := rest
      cases r with
      | ok df =>
        rw [hr] at he
        simp at he
      | error e2 => simp only [obtener_grafico, hr]
  · intro e he
    cases hr : obtener_pools_run s net t params with
    | mk r rest =>
      obtain ⟨s2, n⟩ := rest
      cases r with
      | ok df =>
        rw [hr] at he
        simp at he
      | error e2 => simp only [obtener_pools, hr]
  · intro hc hnet
    have hhs : hacer_solicitud s net t "pools" (parametrosPools params) true
        = (.error .requestException, s, 1) := by
      rw [hacer_solicitud_fallo_cache s net t "pools" (parametrosPools params)
        (by rw [hc]; rfl)]
      rw [hnet]
    simp only [obtener_pools, obtener_pools_run, hhs]
  · intro hc hnet
    have hgen : ∀ ep ps, hacer_solicitud s net t ep ps true
        = (.error .requestException, s, 1) := by
      intro ep ps
      rw [hacer_solicitud_fallo_cache s net t ep ps (by rw [hc]; rfl)]
      rw [hnet]
    cases haj : s.metricas_con_ajuste_promedio with
    | none => simp only [obtener_grafico, obtener_grafico_run, haj]
    | some aj =>
      cases hlk : List.lookup nombre s.metricas_con_endpoint_especial with
      | some ep =>
        simp only [obtener_grafico, obtener_grafico_run, haj, hlk, hgen]
      | none =>
        simp only [obtener_grafico, obtener_grafico_run, haj, hlk, hgen]
  · intro hc hfs hnet
    have hvd := validarDatos_sin_datos fs hfs
    have hgen : ∀ ep ps, hacer_solicitud s net t ep ps true
        = (.ok (Json.obj fs),
           { s with cache := (pySetItem s.cache
               (clave_cache ep (resolverParametros s.parametros_predeterminados ep ps))
               (Json.obj fs, t)) },
           1) := by
      intro ep ps
      rw [hacer_solicitud_fallo_cache s net t ep ps (by rw [hc]; rfl)]
      rw [hnet]
    cases haj : s.metricas_con_ajuste_promedio with
    | none => simp only [obtener_grafico, obtener_grafico_run, haj]
    | some aj =>
      cases hlk : List.lookup nombre s.metricas_con_endpoint_especial with
      | some ep =>
        simp only [obtener_grafico, obtener_grafico_run, haj, hlk, hgen, hvd]
      | none =>
        simp only [obtener_grafico, obtener_grafico_run, haj, hlk, hgen, hvd]

/-- C6 witness: with the network down, `obtener_pools` returns the
empty-but-typed `relativeSize` table after one attempted request and
`obtener_grafico` returns the empty frame; with an upstream that answers
an empty JSON object (no `values`), `obtener_grafico` also returns the
empty frame. -/
theorem C6_testigo :
    (obtener_pools (estadoInicial 3600) netCaido 0 []).1.cols = ["relativeSize"] ∧
    obtener_pools (estadoInicial 3600) netCaido 0 []
      = (DataFrame.vacioPools, estadoInicial 3600, 1) ∧
    (obtener_grafico (estadoInicial 3600) netCaido 0 "market-price" []).1
      = DataFrame.vacio ∧
    (obtener_grafico (estadoInicial 3600)
        (fun _ _ _ => Except.ok (Json.obj [])) 0 "market-price" []).1
      = DataFrame.vacio := by
  have h := C6_contrato_sin_excepciones (estadoInicial 3600) netCaido 0
    "market-price" [] []
  have h2 := C6_contrato_sin_excepciones (estadoInicial 3600)
    (fun _ _ _ => Except.ok (Json.obj [])) 0 "market-price" [] []
  exact ⟨h.1, h.2.2.2.1 rfl rfl, h.2.2.2.2.1 rfl (fun ep qs => rfl),
         h2.2.2.2.2.2 rfl (Or.inl rfl) (fun ep qs => rfl)⟩

/-- C4 witness: the serialization criterion instantiated at a concrete
endpoint and parameter mapping. -/
theorem C4_testigo :
    clave_cache "charts/market-price"
        (resolverParametros parametros_predeterminados "charts/market-price"
          [("timespan", "7days")])
      = clave_cache "charts/market-price"
        (resolverParametros parametros_predeterminados "charts/market-price"
          [("timespan", "7days")])
    ↔ pyDictStr (resolverParametros parametros_predeterminados "charts/market-price"
          [("timespan", "7days")])
      = pyDictStr (resolverParametros parametros_predeterminados "charts/market-price"
          [("timespan", "7days")]) :=
  C4_clave_determinista_por_serializacion "charts/market-price"
    [("timespan", "7days")] [("timespan", "7days")]
